import Mathlib

/-! # cs-crosshair-finder: the crosshair pipeline of `handlers/crosshair.go`

A shallow embedding of `requestFaceIt`, `getPlayer`, `getMatchInfo`,
`downloadDemo` and `CrosshairHandler`.  Everything outside the Go file (the matchmaking platform,
`encoding/json`, the demo host, gzip, the temporary directory, the demo parser)
is a field of `World`; the Go code itself is translated statement by statement.
A run of the handler yields the response writer, whether the handler returned
or panicked, the ordered trace of external calls and the temporary directory
as it is left behind.
-/

namespace Handlers

/-! ## Data model (crosshair.go 19-50) -/

/-- Go `errorResponse`: one entry of an envelope's `errors` list. -/
structure errorResponse where
  Message : String
  Code : String
  HTTPStatus : Int
deriving DecidableEq

/-- Go `Match`. -/
structure Match where
  Errors : List errorResponse
  ID : String
  DemoURL : List String
deriving DecidableEq

/-- Go `PlayerHistory`. -/
structure PlayerHistory where
  Errors : List errorResponse
  MatchID : String
  CompetitionType : String
deriving DecidableEq

/-- Go `Player`. -/
structure Player where
  Errors : List errorResponse
  PlayerID : String
  Nickname : String
  History : List PlayerHistory
deriving DecidableEq

/-- Go zero value `Player{}` (also the state of `var player Player`). -/
def Player.zero : Player := ⟨[], "", "", []⟩

/-- Go zero value `Match{}` (also the state of `var match Match`). -/
def Match.zero : Match := ⟨[], "", []⟩

/-! ## The outside world -/

/-- A playing participant as the demo parser exposes it inside a handler:
`pl.SteamID64` (a uint64, hence a natural number), `pl.Entity.ID()` (an int)
and `pl.ResourceEntity().PropertyValue(name)`, reduced to the pair
`(v.StringVal, present)`. -/
structure Participant where
  SteamID64 : Nat
  EntityID : Int
  PropertyValue : String → String × Bool

/-- What the library calls of `requestFaceIt` (lines 57-67) do for one address:
`http.NewRequest` rejects it, so that `req` is nil; or the request is built and
`client.Do` or `ioutil.ReadAll` returns an error; or the body is read. -/
inductive Transport where
  | rejected
  | error (err : String)
  | ok (body : String)
deriving DecidableEq

/-- Everything `crosshair.go` calls but does not define. -/
structure World where
  /-- The library calls of `requestFaceIt`, per endpoint: `http.NewRequest`,
  then `client.Do` followed by `ioutil.ReadAll`. -/
  faceit : String → Transport
  /-- The call `json.Unmarshal(body, &player)`: the receiver is updated in
  place and the returned error is dropped by the caller. -/
  unmarshalPlayer : String → Player → Player
  /-- The call `json.Unmarshal(body, &match)`. -/
  unmarshalMatch : String → Match → Match
  /-- The call `http.Get(url)` of `downloadDemo`, giving the response body. -/
  httpGet : String → Except String String
  /-- The call `gzip.NewReader(resp.Body)`. -/
  gzipNewReader : String → Except String String
  /-- The call `ioutil.TempFile(os.TempDir(), pattern)`: the name of the file
  it created, or an error. -/
  tempFile : String → Except String String
  /-- The error result of `io.Copy(out, reader)`, per reader. -/
  ioCopy : String → Option String
  /-- The error result of `os.Open(name)`. -/
  osOpen : String → Option String
  /-- The call `p.ParseToEnd()` over the named file: the match-start events
  dispatched (each with the list `Participants().Playing()` at that moment),
  in stream order, and the error the call returns at the end. -/
  parseToEnd : String → List (List Participant) × Option String

/-- An external call made during a run. -/
inductive Effect where
  | faceitGet (endpoint : String)
  | httpGet (url : String)
  | tempFile (name : String)
  | osOpen (name : String)
  | parseToEnd (name : String)
  | osRemove (name : String)
deriving DecidableEq

/-- What keeps a Go call from succeeding: the non-nil error it returns, or the
panic it raises instead of returning. -/
inductive Failure where
  | error (msg : String)
  | panic (msg : String)
deriving DecidableEq

/-- The end of a Go call of result type `(value, error)` together with the
external calls it made; `err = none` is a return with Go's `nil` error,
`err = some (.error msg)` a return with the error `msg`, and
`err = some (.panic msg)` a call that panicked and returned nothing. -/
structure Ret (α : Type) where
  val : α
  err : Option Failure
  trace : List Effect

/-! ## Platform client (crosshair.go 52-107) -/

/-- Go `requestFaceIt`: one GET on the platform API, returning the body bytes
(empty for Go's nil) and the error.  The error of `http.NewRequest` is
overwritten at line 61 without being read, so when the address is rejected
`req.Header.Set` at line 58 dereferences the nil request and the call panics
before anything is sent. -/
def requestFaceIt (env : World) (endpoint : String) : Ret String :=
  match env.faceit endpoint with
  | .rejected =>
    ⟨"", some (.panic "runtime error: invalid memory address or nil pointer dereference"), []⟩
  | .error err => ⟨"", some (.error err), [Effect.faceitGet endpoint]⟩
  | .ok body => ⟨body, none, [Effect.faceitGet endpoint]⟩

/-- Go `getPlayer`; a panic of `requestFaceIt` passes through it. -/
def getPlayer (env : World) (steamID : String) : Ret Player :=
  let r1 := requestFaceIt env ("/players?game=csgo&game_player_id=" ++ steamID)
  match r1.err with
  | some (.panic msg) => ⟨Player.zero, some (.panic msg), r1.trace⟩
  | some (.error err) => ⟨Player.zero, some (.error err), r1.trace⟩
  | none =>
    let player := env.unmarshalPlayer r1.val Player.zero
    match player.Errors with
    | e :: _ => ⟨player, some (.error e.Message), r1.trace⟩
    | [] =>
      let r2 := requestFaceIt env
        ("/players/" ++ player.PlayerID ++ "/history?game=csgo&offset=0&limit=20")
      match r2.err with
      | some (.panic msg) => ⟨Player.zero, some (.panic msg), r1.trace ++ r2.trace⟩
      | some (.error err) => ⟨Player.zero, some (.error err), r1.trace ++ r2.trace⟩
      | none =>
        let player2 := env.unmarshalPlayer r2.val player
        match player2.Errors with
        | e :: _ => ⟨player2, some (.error e.Message), r1.trace ++ r2.trace⟩
        | [] => ⟨player2, none, r1.trace ++ r2.trace⟩

/-- Go `getMatchInfo`; a panic of `requestFaceIt` passes through it. -/
def getMatchInfo (env : World) (matchID : String) : Ret Match :=
  let r := requestFaceIt env ("/matches/" ++ matchID)
  match r.err with
  | some (.panic msg) => ⟨Match.zero, some (.panic msg), r.trace⟩
  | some (.error err) => ⟨Match.zero, some (.error err), r.trace⟩
  | none =>
    let m := env.unmarshalMatch r.val Match.zero
    match m.Errors with
    | e :: _ => ⟨m, some (.error e.Message), r.trace⟩
    | [] => ⟨m, none, r.trace⟩

/-! ## Replay acquisition (crosshair.go 109-132) -/

/-- The result of `downloadDemo`: the `*os.File` (its name, `none` for nil),
the error, the calls made and the temporary directory afterwards. -/
structure Download where
  file : Option String
  err : Option String
  trace : List Effect
  storage : List String

/-- Go `downloadDemo`, run against the temporary directory `storage`. -/
def downloadDemo (env : World) (storage : List String) (fileName url : String) : Download :=
  match env.httpGet url with
  | .error err => ⟨none, some err, [Effect.httpGet url], storage⟩
  | .ok body =>
    match env.gzipNewReader body with
    | .error err => ⟨none, some err, [Effect.httpGet url], storage⟩
    | .ok reader =>
      match env.tempFile (fileName ++ "_*.dem") with
      | .error err => ⟨none, some err, [Effect.httpGet url], storage⟩
      | .ok out =>
        ⟨some out, env.ioCopy reader, [Effect.httpGet url, Effect.tempFile out],
          out :: storage⟩

/-! ## Replay scan (crosshair.go 174-186) -/

/-- Go `fmt.Sprintf("%03d", n)`: width 3, zero padded, the sign counted in the
width. -/
def sprintf03d (n : Int) : String :=
  let digits := Nat.toDigits 10 n.natAbs
  if n < 0 then
    String.mk ('-' :: (List.replicate (2 - digits.length) '0' ++ digits))
  else
    String.mk (List.replicate (3 - digits.length) '0' ++ digits)

/-- The property name `fmt.Sprintf("m_szCrosshairCodes.%03d", id)`. -/
def crosshairProperty (entityID : Int) : String :=
  "m_szCrosshairCodes." ++ sprintf03d entityID

/-- One iteration of the loop inside the match-start handler (lines 179-184);
`fmt.Sprint` of a uint64 is its decimal rendering. -/
def visitParticipant (playerID : String) (playerCrosshair : String) (pl : Participant) :
    String :=
  if Nat.repr pl.SteamID64 = playerID then
    let r := pl.PropertyValue (crosshairProperty pl.EntityID)
    if r.2 = true ∧ r.1 ≠ "" then r.1 else playerCrosshair
  else playerCrosshair

/-- The match-start handler (lines 177-186): the loop over `Playing()`,
acting on the captured variable `playerCrosshair`. -/
def onMatchStart (playerID : String) (playerCrosshair : String) (playing : List Participant) :
    String :=
  playing.foldl (visitParticipant playerID) playerCrosshair

/-- The value of `playerCrosshair` after the parser has dispatched `events`
to the handler, starting from the zero value `""` of line 174. -/
def scanEvents (playerID : String) (events : List (List Participant)) : String :=
  events.foldl (onMatchStart playerID) ""

/-! ## Orchestration (crosshair.go 135-195) -/

/-- The loop of lines 150-155, acting on `latestMatchID`; `break` ends it. -/
def selectLoop : List PlayerHistory → String → String
  | [], latestMatchID => latestMatchID
  | history :: rest, latestMatchID =>
    if history.CompetitionType ≠ "championship" then history.MatchID
    else selectLoop rest latestMatchID

/-- Lines 149-155: `var latestMatchID string` followed by the loop. -/
def latestMatchID (history : List PlayerHistory) : String :=
  selectLoop history ""

/-- The observable part of an `http.ResponseWriter`; `status = none` until a
header has been written. -/
structure ResponseWriter where
  contentType : String
  status : Option Nat
  body : String
deriving DecidableEq

/-- Go `http.Error(w, msg, code)`. -/
def httpError (w : ResponseWriter) (msg : String) (code : Nat) : ResponseWriter :=
  { contentType := "text/plain; charset=utf-8"
    status := some (w.status.getD code)
    body := w.body ++ msg ++ "\n" }

/-- Go `fmt.Fprintf(w, "%s\n", s)`: the first write sends status 200. -/
def fprintfLine (w : ResponseWriter) (s : String) : ResponseWriter :=
  { w with status := some (w.status.getD 200), body := w.body ++ s ++ "\n" }

/-- How the handler function ended. -/
inductive Outcome where
  | returned
  | panicked (msg : String)
deriving DecidableEq

/-- A call registered with `defer`. -/
inductive Deferred where
  | fClose
  | pClose
  | osRemove (name : String)
deriving DecidableEq

/-- The handler at the point where it leaves its body: `defers` holds the
registered calls, most recent first. -/
structure Run where
  w : ResponseWriter
  outcome : Outcome
  trace : List Effect
  storage : List String
  defers : List Deferred

/-- The deferred calls run when the function exits, by return or by panic,
most recently registered first. -/
def runDeferred : List Deferred → List Effect × List String → List Effect × List String
  | [], st => st
  | Deferred.osRemove name :: rest, st =>
    runDeferred rest (st.1 ++ [Effect.osRemove name], st.2.filter (fun f => f ≠ name))
  | _ :: rest, st => runDeferred rest st

/-- The body of Go `CrosshairHandler` up to the point where it returns or
panics; a panic raised inside `getPlayer` or `getMatchInfo` is not recovered
and leaves the handler as it is. -/
def handlerBody (env : World) (storage : List String) (playerID : String) : Run :=
  let w : ResponseWriter := ⟨"application/json", none, ""⟩
  let player := getPlayer env playerID
  match player.err with
  | some (.panic msg) => ⟨w, .panicked msg, player.trace, storage, []⟩
  | some (.error _) =>
    ⟨httpError w ("Could not find user with steam id: " ++ playerID) 500,
      .returned, player.trace, storage, []⟩
  | none =>
    if player.val.History.length = 0 then
      ⟨httpError w ("User " ++ playerID ++ " has not played for at least 6 months") 500,
        .returned, player.trace, storage, []⟩
    else
      let latestMatch := getMatchInfo env (latestMatchID player.val.History)
      let t1 := player.trace ++ latestMatch.trace
      match latestMatch.err with
      | some (.panic msg) => ⟨w, .panicked msg, t1, storage, []⟩
      | some (.error _) =>
        ⟨httpError w ("Error getting user " ++ playerID ++ " latest match") 500,
          .returned, t1, storage, []⟩
      | none =>
        match latestMatch.val.DemoURL with
        | [] =>
          ⟨w, .panicked "runtime error: index out of range [0] with length 0",
            t1, storage, []⟩
        | url :: _ =>
          let demo := downloadDemo env storage latestMatch.val.ID url
          let t2 := t1 ++ demo.trace
          match demo.err with
          | some err => ⟨w, .panicked err, t2, demo.storage, []⟩
          | none =>
            match demo.file with
            | none =>
              ⟨w, .panicked "runtime error: invalid memory address or nil pointer dereference",
                t2, demo.storage, []⟩
            | some name =>
              let t3 := t2 ++ [Effect.osOpen name]
              match env.osOpen name with
              | some err => ⟨w, .panicked err, t3, demo.storage, []⟩
              | none =>
                let parsed := env.parseToEnd name
                let playerCrosshair := scanEvents playerID parsed.1
                let t4 := t3 ++ [Effect.parseToEnd name]
                match parsed.2 with
                | some err => ⟨w, .panicked err, t4, demo.storage, [Deferred.fClose]⟩
                | none =>
                  ⟨fprintfLine w playerCrosshair, .returned, t4, demo.storage,
                    [Deferred.osRemove name, Deferred.pClose, Deferred.fClose]⟩

/-- Go `CrosshairHandler`: the body, then the deferred calls. -/
def CrosshairHandler (env : World) (storage : List String) (playerID : String) : Run :=
  let r := handlerBody env storage playerID
  let st := runDeferred r.defers (r.trace, r.storage)
  { r with trace := st.1, storage := st.2, defers := [] }

/-! ## Vocabulary of the specification -/

/-- A decimal number below 1000 written with exactly three digits, zeros on
the left. -/
def threeDigits (n : Nat) : String :=
  String.mk [Nat.digitChar (n / 100), Nat.digitChar (n / 10 % 10), Nat.digitChar (n % 10)]

/-- The property reads made for the target identity while `events` are
dispatched, in stream order: one `(value, present)` pair per playing
participant whose rendered identity equals `playerID`. -/
def crosshairReads (playerID : String) (events : List (List Participant)) :
    List (String × Bool) :=
  (events.flatten.filter (fun pl => decide (Nat.repr pl.SteamID64 = playerID))).map
    (fun pl => pl.PropertyValue (crosshairProperty pl.EntityID))

/-- A read is accepted when the property is present and its string is not
empty. -/
def acceptedRead (r : String × Bool) : Prop :=
  r.2 = true ∧ r.1 ≠ ""

instance (r : String × Bool) : Decidable (acceptedRead r) := by
  unfold acceptedRead
  infer_instance

/-- The match lookup the handler makes once the player is resolved. -/
def resolvedMatch (env : World) (playerID : String) : Ret Match :=
  getMatchInfo env (latestMatchID (getPlayer env playerID).val.History)

/-- The download the handler makes for the demo address `url`. -/
def acquired (env : World) (storage : List String) (playerID url : String) : Download :=
  downloadDemo env storage (resolvedMatch env playerID).val.ID url

/-- The run gets as far as calling `downloadDemo` on `url`: the player is
resolved with a non-empty history, the match lookup succeeds and `url` is
element 0 of its demo list. -/
def reachesDownload (env : World) (playerID url : String) : Prop :=
  (getPlayer env playerID).err = none ∧
  (getPlayer env playerID).val.History ≠ [] ∧
  (resolvedMatch env playerID).err = none ∧
  (resolvedMatch env playerID).val.DemoURL.head? = some url

instance (env : World) (playerID url : String) : Decidable (reachesDownload env playerID url) := by
  unfold reachesDownload
  infer_instance

/-- The run gets as far as calling `ParseToEnd` on the artifact `name`: the
download of `url` succeeds with that file and the file opens. -/
def reachesParse (env : World) (storage : List String) (playerID url name : String) : Prop :=
  reachesDownload env playerID url ∧
  (acquired env storage playerID url).err = none ∧
  (acquired env storage playerID url).file = some name ∧
  env.osOpen name = none

instance (env : World) (storage : List String) (playerID url name : String) :
    Decidable (reachesParse env storage playerID url name) := by
  unfold reachesParse
  infer_instance

/-! ## Concrete runs -/

/-- The participant of scenario A: identity 111 on entity 4. -/
def participant111 : Participant :=
  ⟨111, 4, fun name =>
    if name = "m_szCrosshairCodes.004" then ("5;1;1;1;0", true) else ("", false)⟩

/-- Identity 111 during warmup: same slot, another code. -/
def warmup111 : Participant :=
  ⟨111, 4, fun name =>
    if name = "m_szCrosshairCodes.004" then ("1;2;3", true) else ("", false)⟩

/-- Identity 111 on a slot whose property is absent. -/
def absent111 : Participant :=
  ⟨111, 9, fun _ => ("", false)⟩

/-- Another player. -/
def participant333 : Participant :=
  ⟨333, 5, fun _ => ("9;9;9", true)⟩

/-- Scenario A: identity 111 has the eligible match M1 with one demo address;
the replay has one match-start event with identity 111 on entity 4. -/
def scenarioA : World where
  faceit := fun endpoint =>
    if endpoint = "/players?game=csgo&game_player_id=111" then .ok "player 111"
    else if endpoint = "/players/p111/history?game=csgo&offset=0&limit=20" then
      .ok "history 111"
    else if endpoint = "/matches/M1" then .ok "match M1"
    else .error "no route"
  unmarshalPlayer := fun body player =>
    if body = "player 111" then { player with PlayerID := "p111", Nickname := "one" }
    else if body = "history 111" then
      { player with History := [⟨[], "M0", "championship"⟩, ⟨[], "M1", "matchmaking"⟩,
                                ⟨[], "M2", "matchmaking"⟩] }
    else player
  unmarshalMatch := fun body m =>
    if body = "match M1" then { m with ID := "M1", DemoURL := ["https://demos/M1.dem.gz"] }
    else m
  httpGet := fun url =>
    if url = "https://demos/M1.dem.gz" then .ok "gz M1" else .error "unreachable"
  gzipNewReader := fun body =>
    if body = "gz M1" then .ok "dem M1" else .error "gzip: invalid header"
  tempFile := fun pattern =>
    if pattern = "M1_*.dem" then .ok "/tmp/M1_1.dem" else .error "no space"
  ioCopy := fun _ => none
  osOpen := fun _ => none
  parseToEnd := fun name =>
    if name = "/tmp/M1_1.dem" then ([[participant333, participant111]], none)
    else ([], some "unexpected EOF")

/-- Scenario A with a history made of championship matches only. -/
def championshipOnly : World :=
  { scenarioA with
    unmarshalPlayer := fun body player =>
      if body = "player 111" then { player with PlayerID := "p111", Nickname := "one" }
      else if body = "history 111" then
        { player with History := [⟨[], "M0", "championship"⟩] }
      else player }

/-- Scenario B: the identity resolves, the history envelope has no items. -/
def scenarioB : World :=
  { scenarioA with
    faceit := fun endpoint =>
      if endpoint = "/players?game=csgo&game_player_id=222" then .ok "player 222"
      else if endpoint = "/players/p222/history?game=csgo&offset=0&limit=20" then
        .ok "history 222"
      else .error "no route"
    unmarshalPlayer := fun body player =>
      if body = "player 222" then { player with PlayerID := "p222", Nickname := "two" }
      else player }

/-- Scenario C: the replay parses to the end and identity 111 is never among
the playing participants. -/
def scenarioC : World :=
  { scenarioA with
    parseToEnd := fun _ => ([[participant333], [participant333]], none) }

/-- Scenario A with a replay the parser rejects part-way. -/
def corruptReplay : World :=
  { scenarioA with
    parseToEnd := fun _ => ([[participant111]], some "unexpected EOF") }

/-- Scenario A with an artifact that cannot be opened. -/
def unreadableArtifact : World :=
  { scenarioA with osOpen := fun _ => some "permission denied" }

/-- Scenario A with a demo host that is down. -/
def demoHostDown : World :=
  { scenarioA with httpGet := fun _ => .error "unreachable" }

/-- Scenario A with a match detail that lists no demo address. -/
def noDemoURL : World :=
  { scenarioA with
    unmarshalMatch := fun body m => if body = "match M1" then { m with ID := "M1" } else m }

/-- Scenario A where the platform answers the player request with an error
envelope. -/
def playerEnvelopeError : World :=
  { scenarioA with
    unmarshalPlayer := fun _ player =>
      { player with Errors := [⟨"player not found", "err_nf_0", 404⟩, ⟨"second", "x", 400⟩] } }

/-- Scenario A where the platform answers the history request with an error
envelope. -/
def historyEnvelopeError : World :=
  { scenarioA with
    unmarshalPlayer := fun body player =>
      if body = "player 111" then { player with PlayerID := "p111", Nickname := "one" }
      else { player with Errors := [⟨"history unavailable", "err_h", 503⟩] } }

/-- Scenario A where the platform answers the match request with an error
envelope. -/
def matchEnvelopeError : World :=
  { scenarioA with
    unmarshalMatch := fun _ m =>
      { m with Errors := [⟨"match not found", "err_nf_1", 404⟩] } }

/-- Scenario A where the platform cannot be reached. -/
def platformDown : World :=
  { scenarioA with faceit := fun _ => .error "dial tcp: timeout" }

/-- Scenario A on a platform client that cannot build the player request for
the identity made of the control byte 0x7f. -/
def controlByteIdentity : World :=
  { scenarioA with
    faceit := fun endpoint =>
      if endpoint = "/players?game=csgo&game_player_id=\x7f" then .rejected
      else scenarioA.faceit endpoint }

/-- Scenario A with a history whose eligible match has the identifier "%zz",
for which the platform client cannot build the match request. -/
def badEscapeMatchID : World :=
  { scenarioA with
    faceit := fun endpoint =>
      if endpoint = "/matches/%zz" then .rejected else scenarioA.faceit endpoint
    unmarshalPlayer := fun body player =>
      if body = "player 111" then { player with PlayerID := "p111", Nickname := "one" }
      else if body = "history 111" then
        { player with History := [⟨[], "%zz", "matchmaking"⟩] }
      else player }

/-- A replay with a warmup start followed by the live start, then a start
where the slot of identity 111 has no value. -/
def twoStarts : List (List Participant) :=
  [[warmup111, participant333], [participant333, participant111], [absent111]]

/-! ## Match selection -/

theorem selectLoop_split (history : List PlayerHistory) (init : String)
    (h : ∃ e ∈ history, e.CompetitionType ≠ "championship") :
    ∃ pre e post, history = pre ++ e :: post ∧
      (∀ x ∈ pre, x.CompetitionType = "championship") ∧
      e.CompetitionType ≠ "championship" ∧
      selectLoop history init = e.MatchID := by
  induction history with
  | nil => simp at h
  | cons a rest ih =>
    by_cases ha : a.CompetitionType = "championship"
    · have hrest : ∃ e ∈ rest, e.CompetitionType ≠ "championship" := by
        obtain ⟨e, he, hne⟩ := h
        rcases List.mem_cons.mp he with rfl | he
        · exact absurd ha hne
        · exact ⟨e, he, hne⟩
      obtain ⟨pre, e, post, hsplit, hpre, hne, hsel⟩ := ih hrest
      refine ⟨a :: pre, e, post, by simp [hsplit], ?_, hne, ?_⟩
      · intro x hx
        rcases List.mem_cons.mp hx with rfl | hx
        · exact ha
        · exact hpre x hx
      · simp [selectLoop, ha, hsel]
    · exact ⟨[], a, rest, rfl, by simp, ha, by simp [selectLoop, ha]⟩

theorem selectLoop_all_championship (history : List PlayerHistory) (init : String)
    (h : ∀ e ∈ history, e.CompetitionType = "championship") :
    selectLoop history init = init := by
  induction history with
  | nil => rfl
  | cons a rest ih =>
    have ha : a.CompetitionType = "championship" := h a (List.mem_cons_self _ _)
    simp [selectLoop, ha, ih (fun e he => h e (List.mem_cons_of_mem _ he))]

/-- C1: whenever the history, in the order given, has an entry whose
competitionType is not "championship", the selection loop of CrosshairHandler
ends with the matchID of the first such entry: every entry before it is a
championship entry, so no later entry is ever chosen. -/
theorem latestMatchID_is_first_eligible (history : List PlayerHistory)
    (h : ∃ e ∈ history, e.CompetitionType ≠ "championship") :
    ∃ pre e post, history = pre ++ e :: post ∧
      (∀ x ∈ pre, x.CompetitionType = "championship") ∧
      e.CompetitionType ≠ "championship" ∧
      latestMatchID history = e.MatchID :=
  selectLoop_split history "" h

/-- C1 at the history of scenario A: M0 is a championship match, M1 and M2 are
not, and M1 is selected. -/
theorem latestMatchID_is_first_eligible_witness :
    (∃ e ∈ ([⟨[], "M0", "championship"⟩, ⟨[], "M1", "matchmaking"⟩,
        ⟨[], "M2", "matchmaking"⟩] : List PlayerHistory),
        e.CompetitionType ≠ "championship") ∧
    (∃ pre e post, ([⟨[], "M0", "championship"⟩, ⟨[], "M1", "matchmaking"⟩,
        ⟨[], "M2", "matchmaking"⟩] : List PlayerHistory) = pre ++ e :: post ∧
      (∀ x ∈ pre, x.CompetitionType = "championship") ∧
      e.CompetitionType ≠ "championship" ∧
      latestMatchID [⟨[], "M0", "championship"⟩, ⟨[], "M1", "matchmaking"⟩,
        ⟨[], "M2", "matchmaking"⟩] = e.MatchID) ∧
    latestMatchID [⟨[], "M0", "championship"⟩, ⟨[], "M1", "matchmaking"⟩,
        ⟨[], "M2", "matchmaking"⟩] = "M1" :=
  ⟨⟨⟨[], "M1", "matchmaking"⟩, by decide, by decide⟩,
   latestMatchID_is_first_eligible _ ⟨⟨[], "M1", "matchmaking"⟩, by decide, by decide⟩,
   by decide⟩

/-! ## Replay scan -/

/-- The effect of one read on `playerCrosshair`. -/
theorem visitParticipant_eq (playerID acc : String) (pl : Participant) :
    visitParticipant playerID acc pl =
      if Nat.repr pl.SteamID64 = playerID then
        (if acceptedRead (pl.PropertyValue (crosshairProperty pl.EntityID))
          then (pl.PropertyValue (crosshairProperty pl.EntityID)).1 else acc)
      else acc := by
  simp [visitParticipant, acceptedRead]

theorem foldl_visit_eq_reads (playerID : String) (players : List Participant) (acc : String) :
    players.foldl (visitParticipant playerID) acc =
      ((players.filter (fun pl => decide (Nat.repr pl.SteamID64 = playerID))).map
        (fun pl => pl.PropertyValue (crosshairProperty pl.EntityID))).foldl
        (fun a r => if acceptedRead r then r.1 else a) acc := by
  induction players generalizing acc with
  | nil => rfl
  | cons pl rest ih =>
    by_cases hid : Nat.repr pl.SteamID64 = playerID
    · simp [List.filter_cons, hid, ih, visitParticipant_eq]
    · simp [List.filter_cons, hid, ih, visitParticipant_eq]

theorem foldl_onMatchStart_flatten (playerID : String) (events : List (List Participant))
    (acc : String) :
    events.foldl (onMatchStart playerID) acc =
      events.flatten.foldl (visitParticipant playerID) acc := by
  induction events generalizing acc with
  | nil => rfl
  | cons ev rest ih => simp [List.foldl_append, onMatchStart, ih]

/-- The scan is a left fold over the reads made for the target identity. -/
theorem scanEvents_eq_reads (playerID : String) (events : List (List Participant)) :
    scanEvents playerID events =
      (crosshairReads playerID events).foldl
        (fun a r => if acceptedRead r then r.1 else a) "" := by
  unfold scanEvents crosshairReads
  rw [foldl_onMatchStart_flatten, foldl_visit_eq_reads]

theorem foldl_reads_rejected (rs : List (String × Bool)) (acc : String)
    (h : ∀ r ∈ rs, ¬ acceptedRead r) :
    rs.foldl (fun a r => if acceptedRead r then r.1 else a) acc = acc := by
  induction rs generalizing acc with
  | nil => rfl
  | cons r rest ih =>
    have hr : ¬ acceptedRead r := h r (List.mem_cons_self _ _)
    simp [hr, ih acc (fun x hx => h x (List.mem_cons_of_mem _ hx))]

theorem foldl_reads_last (pre post : List (String × Bool)) (x : String × Bool) (acc : String)
    (hx : acceptedRead x) (h : ∀ r ∈ post, ¬ acceptedRead r) :
    (pre ++ x :: post).foldl (fun a r => if acceptedRead r then r.1 else a) acc = x.1 := by
  rw [List.foldl_append, List.foldl_cons]
  simp only [hx, if_true]
  exact foldl_reads_rejected post x.1 h

theorem last_accepted_split (rs : List (String × Bool))
    (h : ∃ r ∈ rs, acceptedRead r) :
    ∃ pre x post, rs = pre ++ x :: post ∧ acceptedRead x ∧ ∀ r ∈ post, ¬ acceptedRead r := by
  induction rs with
  | nil => simp at h
  | cons a rest ih =>
    by_cases hrest : ∃ r ∈ rest, acceptedRead r
    · obtain ⟨pre, x, post, hsplit, hx, hpost⟩ := ih hrest
      exact ⟨a :: pre, x, post, by simp [hsplit], hx, hpost⟩
    · have ha : acceptedRead a := by
        obtain ⟨r, hr, hacc⟩ := h
        rcases List.mem_cons.mp hr with rfl | hr
        · exact hacc
        · exact absurd ⟨r, hr, hacc⟩ hrest
      exact ⟨[], a, rest, rfl, ha, fun r hr hacc => hrest ⟨r, hr, hacc⟩⟩

/-- C4: if some match-start event gives the target identity a read that is
present with a non-empty string, the reads split around the last such read
`(V, true)`, every read after it being absent or empty, and the final value
of playerCrosshair is exactly V, whatever was read before. -/
theorem scanEvents_last_accepted_read (playerID : String) (events : List (List Participant))
    (h : ∃ r ∈ crosshairReads playerID events, acceptedRead r) :
    ∃ pre V post, crosshairReads playerID events = pre ++ (V, true) :: post ∧
      V ≠ "" ∧ (∀ r ∈ post, ¬ acceptedRead r) ∧
      scanEvents playerID events = V := by
  obtain ⟨pre, x, post, hsplit, hx, hpost⟩ := last_accepted_split _ h
  obtain ⟨v, b⟩ := x
  have hb : b = true := hx.1
  subst hb
  refine ⟨pre, v, post, hsplit, hx.2, hpost, ?_⟩
  rw [scanEvents_eq_reads, hsplit]
  exact foldl_reads_last pre post (v, true) "" hx hpost

/-- C4 on a replay with a warmup start, a live start and a start without a
value: the warmup code is overwritten and the live code survives. -/
theorem scanEvents_last_accepted_read_witness :
    crosshairReads "111" twoStarts = [("1;2;3", true), ("5;1;1;1;0", true), ("", false)] ∧
    (∃ r ∈ crosshairReads "111" twoStarts, acceptedRead r) ∧
    (∃ pre V post, crosshairReads "111" twoStarts = pre ++ (V, true) :: post ∧
      V ≠ "" ∧ (∀ r ∈ post, ¬ acceptedRead r) ∧ scanEvents "111" twoStarts = V) ∧
    scanEvents "111" twoStarts = "5;1;1;1;0" :=
  ⟨by decide, ⟨("5;1;1;1;0", true), by decide, by decide⟩,
   scanEvents_last_accepted_read "111" twoStarts ⟨("5;1;1;1;0", true), by decide, by decide⟩,
   by decide⟩

/-! ## Property name -/

set_option maxRecDepth 100000 in
theorem crosshairProperty_below_1000 :
    ∀ n : Nat, n < 1000 →
      crosshairProperty (n : Int) = "m_szCrosshairCodes." ++ threeDigits n := by
  decide

/-- C5: for an entity index n from 0 to 999 the property name is
"m_szCrosshairCodes." followed by n written with three decimal digits, zeros
on the left. -/
theorem crosshairProperty_three_digits (n : Nat) (h : n ≤ 999) :
    crosshairProperty (n : Int) = "m_szCrosshairCodes." ++ threeDigits n :=
  crosshairProperty_below_1000 n (by omega)

/-- C5 at the indices 7 and 123 named by the specification. -/
theorem crosshairProperty_three_digits_witness :
    (7 ≤ 999 ∧ crosshairProperty 7 = "m_szCrosshairCodes.007") ∧
    (123 ≤ 999 ∧ crosshairProperty 123 = "m_szCrosshairCodes.123") :=
  ⟨⟨by decide, crosshairProperty_three_digits 7 (by decide)⟩,
   ⟨by decide, crosshairProperty_three_digits 123 (by decide)⟩⟩

/-! ## Player resolution -/

theorem requestFaceIt_trace (env : World) (endpoint : String) :
    ∀ e ∈ (requestFaceIt env endpoint).trace, e = Effect.faceitGet endpoint := by
  intro e he
  unfold requestFaceIt at he
  split at he <;> simp at he <;> exact he

/-- Every call made by `getPlayer` is a platform request on a player path. -/
theorem getPlayer_trace (env : World) (steamID : String) :
    ∀ e ∈ (getPlayer env steamID).trace,
      e = Effect.faceitGet ("/players?game=csgo&game_player_id=" ++ steamID) ∨
      ∃ pid, e = Effect.faceitGet
        ("/players/" ++ pid ++ "/history?game=csgo&offset=0&limit=20") := by
  intro e he
  have h1 := requestFaceIt_trace env ("/players?game=csgo&game_player_id=" ++ steamID) e
  have h2 := fun pid => requestFaceIt_trace env
    ("/players/" ++ pid ++ "/history?game=csgo&offset=0&limit=20") e
  have hboth : ∀ pid,
      e ∈ (requestFaceIt env ("/players?game=csgo&game_player_id=" ++ steamID)).trace ++
        (requestFaceIt env
          ("/players/" ++ pid ++ "/history?game=csgo&offset=0&limit=20")).trace →
      e = Effect.faceitGet ("/players?game=csgo&game_player_id=" ++ steamID) ∨
      ∃ pid, e = Effect.faceitGet
        ("/players/" ++ pid ++ "/history?game=csgo&offset=0&limit=20") := by
    intro pid hmem
    rcases List.mem_append.mp hmem with hmem | hmem
    · exact Or.inl (h1 hmem)
    · exact Or.inr ⟨pid, h2 pid hmem⟩
  unfold getPlayer at he
  dsimp only at he
  split at he
  · exact Or.inl (h1 he)
  · exact Or.inl (h1 he)
  · split at he
    · exact Or.inl (h1 he)
    · split at he
      · exact hboth _ he
      · exact hboth _ he
      · split at he
        · exact hboth _ he
        · exact hboth _ he

theorem matches_second_char (m : String) : ("/matches/" ++ m).data[1]? = some 'm' := by
  rw [String.data_append]
  rfl

theorem players_query_second_char (s : String) :
    ("/players?game=csgo&game_player_id=" ++ s).data[1]? = some 'p' := by
  rw [String.data_append]
  rfl

theorem players_history_second_char (pid : String) :
    ("/players/" ++ pid ++ "/history?game=csgo&offset=0&limit=20").data[1]? = some 'p' := by
  rw [String.data_append, String.data_append]
  rfl

/-- No call made by `getPlayer` is a match lookup. -/
theorem getPlayer_no_match_lookup (env : World) (steamID m : String) :
    Effect.faceitGet ("/matches/" ++ m) ∉ (getPlayer env steamID).trace := by
  intro hmem
  rcases getPlayer_trace env steamID _ hmem with h | ⟨pid, h⟩
  · have heq : "/matches/" ++ m = "/players?game=csgo&game_player_id=" ++ steamID := by
      injection h
    have h1 := matches_second_char m
    rw [heq, players_query_second_char] at h1
    exact absurd h1 (by decide)
  · have heq : "/matches/" ++ m =
        "/players/" ++ pid ++ "/history?game=csgo&offset=0&limit=20" := by
      injection h
    have h1 := matches_second_char m
    rw [heq, players_history_second_char] at h1
    exact absurd h1 (by decide)

/-- C3: when the player lookup succeeds and the history has zero entries, the
handler returns after writing status 500 with the "has not played" message;
the only external calls of the run are those of getPlayer, so there is no
match lookup, no download, no temporary file, and storage is untouched. -/
theorem empty_history_is_reported (env : World) (storage : List String) (playerID : String)
    (hok : (getPlayer env playerID).err = none)
    (hempty : (getPlayer env playerID).val.History = []) :
    (CrosshairHandler env storage playerID).outcome = Outcome.returned ∧
    (CrosshairHandler env storage playerID).w.status = some 500 ∧
    (CrosshairHandler env storage playerID).w.body =
      "User " ++ playerID ++ " has not played for at least 6 months" ++ "\n" ∧
    (CrosshairHandler env storage playerID).trace = (getPlayer env playerID).trace ∧
    (∀ m, Effect.faceitGet ("/matches/" ++ m) ∉ (CrosshairHandler env storage playerID).trace) ∧
    (∀ url, Effect.httpGet url ∉ (CrosshairHandler env storage playerID).trace) ∧
    (∀ name, Effect.tempFile name ∉ (CrosshairHandler env storage playerID).trace) ∧
    (CrosshairHandler env storage playerID).storage = storage := by
  have hrun : CrosshairHandler env storage playerID =
      ⟨httpError ⟨"application/json", none, ""⟩
          ("User " ++ playerID ++ " has not played for at least 6 months") 500,
        Outcome.returned, (getPlayer env playerID).trace, storage, []⟩ := by
    simp [CrosshairHandler, handlerBody, hok, hempty, runDeferred]
  rw [hrun]
  refine ⟨rfl, rfl, ?_, rfl, ?_, ?_, ?_, rfl⟩
  · simp [httpError]
  · intro m
    exact getPlayer_no_match_lookup env playerID m
  · intro url hmem
    rcases getPlayer_trace env playerID _ hmem with h | ⟨_, h⟩ <;> cases h
  · intro name hmem
    rcases getPlayer_trace env playerID _ hmem with h | ⟨_, h⟩ <;> cases h

/-- C3 on scenario B: identity 222 resolves with an empty history. -/
theorem empty_history_is_reported_witness :
    ((getPlayer scenarioB "222").err = none ∧ (getPlayer scenarioB "222").val.History = []) ∧
    (CrosshairHandler scenarioB [] "222").outcome = Outcome.returned ∧
    (CrosshairHandler scenarioB [] "222").w.status = some 500 ∧
    (CrosshairHandler scenarioB [] "222").w.body =
      "User 222 has not played for at least 6 months\n" ∧
    (CrosshairHandler scenarioB [] "222").trace =
      [Effect.faceitGet "/players?game=csgo&game_player_id=222",
       Effect.faceitGet "/players/p222/history?game=csgo&offset=0&limit=20"] :=
  ⟨⟨by decide, by decide⟩,
   (empty_history_is_reported scenarioB [] "222" (by decide) (by decide)).1,
   (empty_history_is_reported scenarioB [] "222" (by decide) (by decide)).2.1,
   by decide, by decide⟩

/-! ## Error envelopes -/

/-- C8: an envelope whose errors list is non-empty makes the lookup fail with
the message of the first entry although the transport succeeded: for the
player envelope (and then the only call made is the player request, so no
history request), for the history envelope, and for the match envelope. -/
theorem error_envelope_is_failure (env : World) :
    (∀ steamID body e es,
      env.faceit ("/players?game=csgo&game_player_id=" ++ steamID) = .ok body →
      (env.unmarshalPlayer body Player.zero).Errors = e :: es →
      (getPlayer env steamID).err = some (Failure.error e.Message) ∧
      (getPlayer env steamID).trace =
        [Effect.faceitGet ("/players?game=csgo&game_player_id=" ++ steamID)]) ∧
    (∀ steamID body body2 e es,
      env.faceit ("/players?game=csgo&game_player_id=" ++ steamID) = .ok body →
      (env.unmarshalPlayer body Player.zero).Errors = [] →
      env.faceit ("/players/" ++ (env.unmarshalPlayer body Player.zero).PlayerID ++
        "/history?game=csgo&offset=0&limit=20") = .ok body2 →
      (env.unmarshalPlayer body2 (env.unmarshalPlayer body Player.zero)).Errors = e :: es →
      (getPlayer env steamID).err = some (Failure.error e.Message)) ∧
    (∀ matchID body e es,
      env.faceit ("/matches/" ++ matchID) = .ok body →
      (env.unmarshalMatch body Match.zero).Errors = e :: es →
      (getMatchInfo env matchID).err = some (Failure.error e.Message)) := by
  refine ⟨?_, ?_, ?_⟩
  · intro steamID body e es hreq herr
    simp [getPlayer, requestFaceIt, hreq, herr]
  · intro steamID body body2 e es hreq hnone hreq2 herr
    simp [getPlayer, requestFaceIt, hreq, hnone, hreq2, herr]
  · intro matchID body e es hreq herr
    simp [getMatchInfo, requestFaceIt, hreq, herr]

/-- C8 on three platforms answering with an error envelope: the player
request, the history request and the match request. -/
theorem error_envelope_is_failure_witness :
    ((getPlayer playerEnvelopeError "111").err = some (Failure.error "player not found") ∧
      (getPlayer playerEnvelopeError "111").trace =
        [Effect.faceitGet "/players?game=csgo&game_player_id=111"]) ∧
    (getPlayer historyEnvelopeError "111").err = some (Failure.error "history unavailable") ∧
    (getMatchInfo matchEnvelopeError "M1").err = some (Failure.error "match not found") :=
  ⟨(error_envelope_is_failure playerEnvelopeError).1 "111" "player 111"
      ⟨"player not found", "err_nf_0", 404⟩ [⟨"second", "x", 400⟩] rfl rfl,
   (error_envelope_is_failure historyEnvelopeError).2.1 "111" "player 111" "history 111"
      ⟨"history unavailable", "err_h", 503⟩ [] rfl rfl rfl rfl,
   (error_envelope_is_failure matchEnvelopeError).2.2 "M1" "match M1"
      ⟨"match not found", "err_nf_1", 404⟩ [] rfl rfl⟩

/-! ## The handler, stage by stage -/

/-- The run of the handler once the parse of artifact `name` is reached and
returns no error. -/
theorem handler_parse_ok (env : World) (storage : List String)
    (playerID url name : String) (events : List (List Participant))
    (h : reachesParse env storage playerID url name)
    (hparse : env.parseToEnd name = (events, none)) :
    (CrosshairHandler env storage playerID).outcome = Outcome.returned ∧
    (CrosshairHandler env storage playerID).w =
      fprintfLine ⟨"application/json", none, ""⟩ (scanEvents playerID events) ∧
    (CrosshairHandler env storage playerID).storage =
      (acquired env storage playerID url).storage.filter (fun f => f ≠ name) := by
  obtain ⟨⟨hp, hh, hm, hu⟩, hd, hf, ho⟩ := h
  unfold acquired at hd hf ⊢
  unfold resolvedMatch at hm hu hd hf ⊢
  cases hurl : (getMatchInfo env (latestMatchID (getPlayer env playerID).val.History)).val.DemoURL with
  | nil => simp [hurl] at hu
  | cons u rest =>
    simp [hurl] at hu
    subst hu
    simp [CrosshairHandler, handlerBody, hp, hh, hm, hurl, hd, hf, ho, hparse, runDeferred]

/-- C6: when the replay parses to the end and no read for the target identity
is present with a non-empty string (in particular when the identity is never
among the playing participants), playerCrosshair stays empty and the handler
returns normally with status 200 and a body that is one newline. -/
theorem no_crosshair_is_success (env : World) (storage : List String)
    (playerID url name : String) (events : List (List Participant))
    (h : reachesParse env storage playerID url name)
    (hparse : env.parseToEnd name = (events, none))
    (hnone : ∀ r ∈ crosshairReads playerID events, ¬ acceptedRead r) :
    scanEvents playerID events = "" ∧
    (CrosshairHandler env storage playerID).outcome = Outcome.returned ∧
    (CrosshairHandler env storage playerID).w.status = some 200 ∧
    (CrosshairHandler env storage playerID).w.body = "\n" := by
  have hscan : scanEvents playerID events = "" := by
    rw [scanEvents_eq_reads]
    exact foldl_reads_rejected _ "" hnone
  obtain ⟨hout, hw, _⟩ := handler_parse_ok env storage playerID url name events h hparse
  rw [hw, hscan]
  exact ⟨rfl, hout, rfl, rfl⟩

/-- C6 on scenario C: identity 111 never plays, the response is a bare
newline with status 200. -/
theorem no_crosshair_is_success_witness :
    reachesParse scenarioC [] "111" "https://demos/M1.dem.gz" "/tmp/M1_1.dem" ∧
    crosshairReads "111" [[participant333], [participant333]] = [] ∧
    (CrosshairHandler scenarioC [] "111").outcome = Outcome.returned ∧
    (CrosshairHandler scenarioC [] "111").w.status = some 200 ∧
    (CrosshairHandler scenarioC [] "111").w.body = "\n" :=
  ⟨by decide, by decide,
   (no_crosshair_is_success scenarioC [] "111" "https://demos/M1.dem.gz" "/tmp/M1_1.dem"
      [[participant333], [participant333]] (by decide) rfl (by decide)).2⟩

/-- On the successful path the deferred `os.Remove` deletes the artifact. -/
theorem artifact_removed_on_success (env : World) (storage : List String)
    (playerID url name : String) (events : List (List Participant))
    (h : reachesParse env storage playerID url name)
    (hparse : env.parseToEnd name = (events, none)) :
    name ∉ (CrosshairHandler env storage playerID).storage := by
  obtain ⟨_, _, hst⟩ := handler_parse_ok env storage playerID url name events h hparse
  rw [hst]
  simp

/-- The run of the handler when `getPlayer` returns an error. -/
theorem handler_player_error (env : World) (storage : List String) (playerID e : String)
    (h : (getPlayer env playerID).err = some (Failure.error e)) :
    CrosshairHandler env storage playerID =
      ⟨httpError ⟨"application/json", none, ""⟩
          ("Could not find user with steam id: " ++ playerID) 500,
        Outcome.returned, (getPlayer env playerID).trace, storage, []⟩ := by
  simp [CrosshairHandler, handlerBody, h, runDeferred]

/-- The run of the handler when `getMatchInfo` returns an error. -/
theorem handler_match_error (env : World) (storage : List String) (playerID e : String)
    (hp : (getPlayer env playerID).err = none)
    (hh : (getPlayer env playerID).val.History ≠ [])
    (hm : (resolvedMatch env playerID).err = some (Failure.error e)) :
    CrosshairHandler env storage playerID =
      ⟨httpError ⟨"application/json", none, ""⟩
          ("Error getting user " ++ playerID ++ " latest match") 500,
        Outcome.returned,
        (getPlayer env playerID).trace ++ (resolvedMatch env playerID).trace, storage, []⟩ := by
  unfold resolvedMatch at hm ⊢
  simp [CrosshairHandler, handlerBody, hp, hh, hm, runDeferred]

/-- The run of the handler when `downloadDemo` returns an error. -/
theorem handler_download_error (env : World) (storage : List String) (playerID url e : String)
    (h : reachesDownload env playerID url)
    (hd : (acquired env storage playerID url).err = some e) :
    (CrosshairHandler env storage playerID).outcome = Outcome.panicked e ∧
    (CrosshairHandler env storage playerID).w = ⟨"application/json", none, ""⟩ ∧
    (CrosshairHandler env storage playerID).storage =
      (acquired env storage playerID url).storage := by
  obtain ⟨hp, hh, hm, hu⟩ := h
  unfold acquired at hd ⊢
  unfold resolvedMatch at hm hu hd ⊢
  cases hurl : (getMatchInfo env (latestMatchID (getPlayer env playerID).val.History)).val.DemoURL with
  | nil => simp [hurl] at hu
  | cons u rest =>
    simp [hurl] at hu
    subst hu
    simp [CrosshairHandler, handlerBody, hp, hh, hm, hurl, hd, runDeferred]

/-- The run of the handler when `os.Open` returns an error. -/
theorem handler_open_error (env : World) (storage : List String)
    (playerID url name e : String)
    (h : reachesDownload env playerID url)
    (hd : (acquired env storage playerID url).err = none)
    (hf : (acquired env storage playerID url).file = some name)
    (ho : env.osOpen name = some e) :
    (CrosshairHandler env storage playerID).outcome = Outcome.panicked e ∧
    (CrosshairHandler env storage playerID).w = ⟨"application/json", none, ""⟩ ∧
    (CrosshairHandler env storage playerID).storage =
      (acquired env storage playerID url).storage := by
  obtain ⟨hp, hh, hm, hu⟩ := h
  unfold acquired at hd hf ⊢
  unfold resolvedMatch at hm hu hd hf ⊢
  cases hurl : (getMatchInfo env (latestMatchID (getPlayer env playerID).val.History)).val.DemoURL with
  | nil => simp [hurl] at hu
  | cons u rest =>
    simp [hurl] at hu
    subst hu
    simp [CrosshairHandler, handlerBody, hp, hh, hm, hurl, hd, hf, ho, runDeferred]

/-- The run of the handler when `ParseToEnd` returns an error. -/
theorem handler_parse_error (env : World) (storage : List String)
    (playerID url name e : String)
    (h : reachesParse env storage playerID url name)
    (hparse : (env.parseToEnd name).2 = some e) :
    (CrosshairHandler env storage playerID).outcome = Outcome.panicked e ∧
    (CrosshairHandler env storage playerID).w = ⟨"application/json", none, ""⟩ ∧
    (CrosshairHandler env storage playerID).storage =
      (acquired env storage playerID url).storage := by
  obtain ⟨⟨hp, hh, hm, hu⟩, hd, hf, ho⟩ := h
  unfold acquired at hd hf ⊢
  unfold resolvedMatch at hm hu hd hf ⊢
  cases hurl : (getMatchInfo env (latestMatchID (getPlayer env playerID).val.History)).val.DemoURL with
  | nil => simp [hurl] at hu
  | cons u rest =>
    simp [hurl] at hu
    subst hu
    simp [CrosshairHandler, handlerBody, hp, hh, hm, hurl, hd, hf, ho, hparse, runDeferred]

/-- The run of the handler when the match detail has an empty demo list. -/
theorem handler_empty_demo_list (env : World) (storage : List String) (playerID : String)
    (hp : (getPlayer env playerID).err = none)
    (hh : (getPlayer env playerID).val.History ≠ [])
    (hm : (resolvedMatch env playerID).err = none)
    (hu : (resolvedMatch env playerID).val.DemoURL = []) :
    CrosshairHandler env storage playerID =
      ⟨⟨"application/json", none, ""⟩,
        Outcome.panicked "runtime error: index out of range [0] with length 0",
        (getPlayer env playerID).trace ++ (resolvedMatch env playerID).trace, storage, []⟩ := by
  unfold resolvedMatch at hm hu ⊢
  simp [CrosshairHandler, handlerBody, hp, hh, hm, hu, runDeferred]

/-- A file returned by `downloadDemo` has been added to storage. -/
theorem downloadDemo_file_in_storage (env : World) (storage : List String)
    (fileName url name : String)
    (h : (downloadDemo env storage fileName url).file = some name) :
    name ∈ (downloadDemo env storage fileName url).storage := by
  unfold downloadDemo at h ⊢
  split at h
  · simp at h
  · split at h
    · simp at h
    · split at h
      · simp at h
      · simp at h
        simp_all

/-- When `ParseToEnd` returns an error the artifact is still in storage at
the end of the run. -/
theorem artifact_kept_on_parse_error (env : World) (storage : List String)
    (playerID url name e : String)
    (h : reachesParse env storage playerID url name)
    (hparse : (env.parseToEnd name).2 = some e) :
    name ∈ (CrosshairHandler env storage playerID).storage := by
  obtain ⟨_, _, hst⟩ := handler_parse_error env storage playerID url name e h hparse
  rw [hst]
  exact downloadDemo_file_in_storage env storage _ url name h.2.2.1

/-- When `os.Open` returns an error the artifact is still in storage at the
end of the run. -/
theorem artifact_kept_on_open_error (env : World) (storage : List String)
    (playerID url name e : String)
    (h : reachesDownload env playerID url)
    (hd : (acquired env storage playerID url).err = none)
    (hf : (acquired env storage playerID url).file = some name)
    (ho : env.osOpen name = some e) :
    name ∈ (CrosshairHandler env storage playerID).storage := by
  obtain ⟨_, _, hst⟩ := handler_open_error env storage playerID url name e h hd hf ho
  rw [hst]
  exact downloadDemo_file_in_storage env storage _ url name hf

/-- On a non-empty history made of championship entries only, the handler
requests the match with the empty identifier. -/
theorem all_championship_requests_empty_id (env : World) (storage : List String)
    (playerID : String)
    (hp : (getPlayer env playerID).err = none)
    (hh : (getPlayer env playerID).val.History ≠ [])
    (hall : ∀ e ∈ (getPlayer env playerID).val.History, e.CompetitionType = "championship")
    (hbuilt : env.faceit "/matches/" ≠ Transport.rejected) :
    latestMatchID (getPlayer env playerID).val.History = "" ∧
    Effect.faceitGet "/matches/" ∈ (CrosshairHandler env storage playerID).trace := by
  have hsel : latestMatchID (getPlayer env playerID).val.History = "" :=
    selectLoop_all_championship _ "" hall
  refine ⟨hsel, ?_⟩
  have hmem : Effect.faceitGet "/matches/" ∈ (getMatchInfo env "").trace := by
    have hrq : (requestFaceIt env "/matches/").trace = [Effect.faceitGet "/matches/"] := by
      unfold requestFaceIt
      split
      · rename_i hrej
        exact absurd hrej hbuilt
      · rfl
      · rfl
    have happ : "/matches/" ++ "" = "/matches/" := by decide
    unfold getMatchInfo
    rw [happ]
    simp only []
    split
    · simp [hrq]
    · simp [hrq]
    · split <;> simp [hrq]
  have hsub : ∀ (ds : List Deferred) (t : List Effect) (st : List String) (x : Effect),
      x ∈ t → x ∈ (runDeferred ds (t, st)).1 := by
    intro ds
    induction ds with
    | nil => intro t st x hx; exact hx
    | cons d rest ih =>
      intro t st x hx
      cases d with
      | fClose => exact ih t st x hx
      | pClose => exact ih t st x hx
      | osRemove name => exact ih _ _ x (List.mem_append_left _ hx)
  unfold CrosshairHandler
  apply hsub
  unfold handlerBody
  simp only [hp, hsel]
  rw [if_neg (by simpa using hh)]
  repeat' split
  all_goals simp [hmem]

/-- The run of the handler when `requestFaceIt` panics inside `getPlayer`:
nothing recovers the panic, so it leaves the handler with no response. -/
theorem handler_player_panic (env : World) (storage : List String) (playerID msg : String)
    (h : (getPlayer env playerID).err = some (Failure.panic msg)) :
    CrosshairHandler env storage playerID =
      ⟨⟨"application/json", none, ""⟩, Outcome.panicked msg,
        (getPlayer env playerID).trace, storage, []⟩ := by
  simp [CrosshairHandler, handlerBody, h, runDeferred]

/-- The run of the handler when `requestFaceIt` panics inside `getMatchInfo`. -/
theorem handler_match_panic (env : World) (storage : List String) (playerID msg : String)
    (hp : (getPlayer env playerID).err = none)
    (hh : (getPlayer env playerID).val.History ≠ [])
    (hm : (resolvedMatch env playerID).err = some (Failure.panic msg)) :
    CrosshairHandler env storage playerID =
      ⟨⟨"application/json", none, ""⟩, Outcome.panicked msg,
        (getPlayer env playerID).trace ++ (resolvedMatch env playerID).trace, storage, []⟩ := by
  unfold resolvedMatch at hm ⊢
  simp [CrosshairHandler, handlerBody, hp, hh, hm, runDeferred]

/-- A request the client cannot build is not a returned error.  For the
identity made of the control byte 0x7f the handler panics before any call is
made; for the match identifier "%zz" it panics after the two player requests.
Neither run writes a response. -/
theorem rejected_request_panics :
    ((getPlayer controlByteIdentity "\x7f").err =
        some (Failure.panic "runtime error: invalid memory address or nil pointer dereference") ∧
      (CrosshairHandler controlByteIdentity [] "\x7f").outcome =
        Outcome.panicked "runtime error: invalid memory address or nil pointer dereference" ∧
      (CrosshairHandler controlByteIdentity [] "\x7f").w.status = none ∧
      (CrosshairHandler controlByteIdentity [] "\x7f").trace = []) ∧
    ((resolvedMatch badEscapeMatchID "111").err =
        some (Failure.panic "runtime error: invalid memory address or nil pointer dereference") ∧
      (CrosshairHandler badEscapeMatchID [] "111").outcome =
        Outcome.panicked "runtime error: invalid memory address or nil pointer dereference" ∧
      (CrosshairHandler badEscapeMatchID [] "111").w.status = none ∧
      (CrosshairHandler badEscapeMatchID [] "111").trace =
        [Effect.faceitGet "/players?game=csgo&game_player_id=111",
         Effect.faceitGet "/players/p111/history?game=csgo&offset=0&limit=20"]) := by
  decide

/-! ## Failure surface -/

/-- C10, as stated, fails when the demo host is down: `downloadDemo` returns
an error and the handler neither returns nor writes any status, it panics
with that error. -/
theorem download_error_panics :
    (acquired demoHostDown [] "111" "https://demos/M1.dem.gz").err = some "unreachable" ∧
    (CrosshairHandler demoHostDown [] "111").outcome = Outcome.panicked "unreachable" ∧
    (CrosshairHandler demoHostDown [] "111").w.status = none ∧
    ¬ ((CrosshairHandler demoHostDown [] "111").outcome = Outcome.returned ∧
       (CrosshairHandler demoHostDown [] "111").w.status = some 500) := by
  decide

/-- C10 amended: an error returned by player resolution or by the match
lookup ends the handler by a normal return after an error response with a
message and status 500; an error returned by downloadDemo (download,
decompression, file creation or copy), by os.Open or by ParseToEnd is passed
to `panic`: the handler does not return and writes no status and no body.
A lookup that panics instead of returning is not a returned error and is not
covered here. -/
theorem stage_errors_surface (env : World) (storage : List String) (playerID : String) :
    (∀ e, (getPlayer env playerID).err = some (Failure.error e) →
      (CrosshairHandler env storage playerID).outcome = Outcome.returned ∧
      (CrosshairHandler env storage playerID).w.status = some 500 ∧
      (CrosshairHandler env storage playerID).w.body =
        "Could not find user with steam id: " ++ playerID ++ "\n") ∧
    (∀ e, (getPlayer env playerID).err = none →
      (getPlayer env playerID).val.History ≠ [] →
      (resolvedMatch env playerID).err = some (Failure.error e) →
      (CrosshairHandler env storage playerID).outcome = Outcome.returned ∧
      (CrosshairHandler env storage playerID).w.status = some 500 ∧
      (CrosshairHandler env storage playerID).w.body =
        "Error getting user " ++ playerID ++ " latest match" ++ "\n") ∧
    (∀ url e, reachesDownload env playerID url →
      (acquired env storage playerID url).err = some e →
      (CrosshairHandler env storage playerID).outcome = Outcome.panicked e ∧
      (CrosshairHandler env storage playerID).w.status = none ∧
      (CrosshairHandler env storage playerID).w.body = "") ∧
    (∀ url name e, reachesDownload env playerID url →
      (acquired env storage playerID url).err = none →
      (acquired env storage playerID url).file = some name →
      env.osOpen name = some e →
      (CrosshairHandler env storage playerID).outcome = Outcome.panicked e ∧
      (CrosshairHandler env storage playerID).w.status = none ∧
      (CrosshairHandler env storage playerID).w.body = "") ∧
    (∀ url name e, reachesParse env storage playerID url name →
      (env.parseToEnd name).2 = some e →
      (CrosshairHandler env storage playerID).outcome = Outcome.panicked e ∧
      (CrosshairHandler env storage playerID).w.status = none ∧
      (CrosshairHandler env storage playerID).w.body = "") := by
  refine ⟨?_, ?_, ?_, ?_, ?_⟩
  · intro e h
    rw [handler_player_error env storage playerID e h]
    refine ⟨rfl, rfl, ?_⟩
    simp [httpError]
  · intro e hp hh hm
    rw [handler_match_error env storage playerID e hp hh hm]
    refine ⟨rfl, rfl, ?_⟩
    simp [httpError]
  · intro url e h hd
    obtain ⟨hout, hw, _⟩ := handler_download_error env storage playerID url e h hd
    rw [hw]
    exact ⟨hout, rfl, rfl⟩
  · intro url name e h hd hf ho
    obtain ⟨hout, hw, _⟩ := handler_open_error env storage playerID url name e h hd hf ho
    rw [hw]
    exact ⟨hout, rfl, rfl⟩
  · intro url name e h hparse
    obtain ⟨hout, hw, _⟩ := handler_parse_error env storage playerID url name e h hparse
    rw [hw]
    exact ⟨hout, rfl, rfl⟩

/-- C10 amended, one run per stage: the platform is down, the match envelope
has errors, the demo host is down, the artifact cannot be opened, the replay
is corrupt. -/
theorem stage_errors_surface_witness :
    ((CrosshairHandler platformDown [] "111").outcome = Outcome.returned ∧
      (CrosshairHandler platformDown [] "111").w.status = some 500 ∧
      (CrosshairHandler platformDown [] "111").w.body =
        "Could not find user with steam id: 111\n") ∧
    ((CrosshairHandler matchEnvelopeError [] "111").outcome = Outcome.returned ∧
      (CrosshairHandler matchEnvelopeError [] "111").w.status = some 500 ∧
      (CrosshairHandler matchEnvelopeError [] "111").w.body =
        "Error getting user 111 latest match\n") ∧
    ((CrosshairHandler demoHostDown [] "111").outcome = Outcome.panicked "unreachable" ∧
      (CrosshairHandler demoHostDown [] "111").w.status = none ∧
      (CrosshairHandler demoHostDown [] "111").w.body = "") ∧
    ((CrosshairHandler unreadableArtifact [] "111").outcome =
        Outcome.panicked "permission denied" ∧
      (CrosshairHandler unreadableArtifact [] "111").w.status = none ∧
      (CrosshairHandler unreadableArtifact [] "111").w.body = "") ∧
    ((CrosshairHandler corruptReplay [] "111").outcome = Outcome.panicked "unexpected EOF" ∧
      (CrosshairHandler corruptReplay [] "111").w.status = none ∧
      (CrosshairHandler corruptReplay [] "111").w.body = "") :=
  ⟨(stage_errors_surface platformDown [] "111").1 "dial tcp: timeout" (by decide),
   (stage_errors_surface matchEnvelopeError [] "111").2.1 "match not found"
      (by decide) (by decide) (by decide),
   (stage_errors_surface demoHostDown [] "111").2.2.1 "https://demos/M1.dem.gz" "unreachable"
      (by decide) (by decide),
   (stage_errors_surface unreadableArtifact [] "111").2.2.2.1 "https://demos/M1.dem.gz"
      "/tmp/M1_1.dem" "permission denied" (by decide) (by decide) (by decide) (by decide),
   (stage_errors_surface corruptReplay [] "111").2.2.2.2 "https://demos/M1.dem.gz"
      "/tmp/M1_1.dem" "unexpected EOF" (by decide) (by decide)⟩

/-! ## Runs on which the code departs from the specification -/

/-- C2: on a history made of one championship entry the selection loop leaves
latestMatchID empty and the handler goes on to request the match with the
empty identifier, endpoint "/matches/". -/
theorem championship_only_looks_up_empty_id :
    (getPlayer championshipOnly "111").err = none ∧
    (getPlayer championshipOnly "111").val.History = [⟨[], "M0", "championship"⟩] ∧
    latestMatchID (getPlayer championshipOnly "111").val.History = "" ∧
    (CrosshairHandler championshipOnly [] "111").trace =
      [Effect.faceitGet "/players?game=csgo&game_player_id=111",
       Effect.faceitGet "/players/p111/history?game=csgo&offset=0&limit=20",
       Effect.faceitGet "/matches/"] := by
  decide

/-- C7: with a corrupt replay, and with an artifact that cannot be opened,
downloadDemo succeeds in creating "/tmp/M1_1.dem", the handler panics before
`os.Remove` is deferred, and the file is still in storage when the run ends;
on the successful run of scenario A the file is removed. -/
theorem artifact_left_behind_on_panic :
    ((acquired corruptReplay [] "111" "https://demos/M1.dem.gz").err = none ∧
      (acquired corruptReplay [] "111" "https://demos/M1.dem.gz").file = some "/tmp/M1_1.dem" ∧
      (CrosshairHandler corruptReplay [] "111").outcome = Outcome.panicked "unexpected EOF" ∧
      (CrosshairHandler corruptReplay [] "111").storage = ["/tmp/M1_1.dem"]) ∧
    ((acquired unreadableArtifact [] "111" "https://demos/M1.dem.gz").err = none ∧
      (acquired unreadableArtifact [] "111" "https://demos/M1.dem.gz").file =
        some "/tmp/M1_1.dem" ∧
      (CrosshairHandler unreadableArtifact [] "111").outcome =
        Outcome.panicked "permission denied" ∧
      (CrosshairHandler unreadableArtifact [] "111").storage = ["/tmp/M1_1.dem"]) ∧
    (CrosshairHandler scenarioA [] "111").storage = [] := by
  decide

/-- C9: a match detail without errors and with an empty demo list makes the
handler evaluate element 0 of the empty list: it panics with an index error,
writes no response, and makes no download. -/
theorem empty_demo_list_panics :
    (resolvedMatch noDemoURL "111").err = none ∧
    (resolvedMatch noDemoURL "111").val.DemoURL = [] ∧
    (CrosshairHandler noDemoURL [] "111").outcome =
      Outcome.panicked "runtime error: index out of range [0] with length 0" ∧
    (CrosshairHandler noDemoURL [] "111").w.status = none ∧
    (CrosshairHandler noDemoURL [] "111").trace =
      [Effect.faceitGet "/players?game=csgo&game_player_id=111",
       Effect.faceitGet "/players/p111/history?game=csgo&offset=0&limit=20",
       Effect.faceitGet "/matches/M1"] := by
  decide

end Handlers
